import Mathlib

/-!
Verification development for the SampSharp plugin bridge
(`src/SampSharp/remote_server.cpp`).

The C++ source is shallowly embedded: the bridge instance becomes an
explicit state record (`SState`), external collaborators (transport,
native bridge, callback registry, clock) become an environment record
(`Env`), the stream of transport poll results becomes a finite script
(`List Recv`), and observable side effects (sends, logs, indicator
signals, buffer frees, lock operations) become an event trace
(`List Event`).  The mutually recursive receive loop is interpreted with
explicit fuel; `none` marks a run that did not settle within the fuel
(the C loop would still be spinning).
-/

/-- Result status of one receive attempt (the C `cmd_status` enum). -/
inductive CmdStatus where
  | handled
  | unhandled
  | no_cmd
  | conn_dead
  deriving Repr, DecidableEq, BEq

/-- One poll result of the transport `receive` call: a framed command
(opcode plus payload bytes), an empty poll, or a dead channel. -/
inductive Recv where
  | cmd (opcode : Nat) (payload : List Nat)
  | noCmd
  | dead
  deriving Repr, DecidableEq

/-- Observable side effects of the bridge, in program order. -/
inductive Event where
  | send (opcode : Nat) (payload : List Nat)
  | logInfo (msg : String)
  | logDebug (msg : String)
  | logError (msg : String)
  | logPrint (data : List Nat)
  | sigStarting
  | sigDisconnect
  | sigError
  | setOn (b : Bool)
  | rcon (s : String)
  | didRegisterCall (buf : List Nat)
  | didInvokeNative (args : List Nat)
  | commDisconnect
  | commSetup
  | lockAcquire
  | lockRelease
  | freeBuf (buf : List Nat)
  deriving Repr, DecidableEq

/-- The `status` flag bitfield of `remote_server`, one Boolean per flag. -/
structure status where
  client_connected : Bool
  client_started : Bool
  client_received_init : Bool
  client_reconnecting : Bool
  client_disconnecting : Bool
  server_received_init : Bool
  deriving Repr, DecidableEq

/-- The mutable state of a `remote_server` instance (fields keep their
C++ names): status flags, the native and callback caches, the two
timers `sol_` (last interaction) and `tick_` (last sent tick), the
debug-pause bookkeeping, and the transport connection state. -/
structure SState where
  status_ : status
  natives_ : List (List Nat)
  callbacks_ : List (List Nat)
  sol_ : Int
  tick_ : Int
  is_debug_ : Bool
  ticks_skipped_ : Nat
  debug_check_ : Bool
  commConnected : Bool
  commReady : Bool
  deriving Repr, DecidableEq

/-- External collaborators: the clock (`time(NULL)`), transport
setup/connect outcomes, version constants, working directory bytes, the
native bridge (`get_handle`, `invoke`) and the callback registry
serializer (`fill_call_buffer`, keyed by callback name; `none` models a
fill failure). -/
structure Env where
  now : Int
  setupOk : Bool
  transportAccept : Bool
  protocolVersion : Nat
  pluginVersion : Nat
  cwd : List Nat
  get_handle : List Nat → Int
  invoke_result : List Nat → List Nat
  fill_call_buffer : String → Option (List Nat)

/-- Output of `cmd_process` / `cmd_receive_one`: status, the by-ref
reply slot (`none` = left untouched by the callee), the new state, the
remaining transport script, and the emitted events. -/
structure ProcOut where
  stat : CmdStatus
  resp : Option (List Nat)
  st : SState
  script : List Recv
  evs : List Event
  deriving Repr, DecidableEq

/-- Output of `cmd_receive_unhandled`: the Boolean result (`true` iff
the loop stopped on an unhandled command), the surfaced reply, the new
state, remaining script, and events. -/
structure LoopOut where
  ok : Bool
  resp : Option (List Nat)
  st : SState
  script : List Recv
  evs : List Event
  deriving Repr, DecidableEq

/-- Output of a void operation (`cmd_start`, `tick`): new state,
remaining script, events. -/
structure RunOut where
  st : SState
  script : List Recv
  evs : List Event
  deriving Repr, DecidableEq

/-- Output of `public_call`: new state, remaining script, events, and
the value written through `retval` (`none` = slot left unchanged). -/
structure CallOut where
  st : SState
  script : List Recv
  evs : List Event
  retval : Option Nat
  deriving Repr, DecidableEq

def DEBUG_PAUSE_TIMEOUT : Int := 5
def DEBUG_PAUSE_TICK_INTERVAL : Int := 7
def DEBUG_PAUSE_TICK_MIN_SKIP : Nat := 50

def CMD_PING : Nat := 0x01
def CMD_PRINT : Nat := 0x02
def CMD_RESPONSE : Nat := 0x03
def CMD_RECONNECT : Nat := 0x04
def CMD_REGISTER_CALL : Nat := 0x05
def CMD_FIND_NATIVE : Nat := 0x06
def CMD_INVOKE_NATIVE : Nat := 0x07
def CMD_START : Nat := 0x08
def CMD_DISCONNECT : Nat := 0x09
def CMD_ALIVE : Nat := 0x10

def CMD_TICK : Nat := 0x11
def CMD_PONG : Nat := 0x12
def CMD_PUBLIC_CALL : Nat := 0x13
def CMD_REPLY : Nat := 0x14
def CMD_ANNOUNCE : Nat := 0x15

/-- Little-endian byte encoding of a 32-bit unsigned value. -/
def le32 (n : Nat) : List Nat :=
  [n % 256, n / 256 % 256, n / 65536 % 256, n / 16777216 % 256]

/-- Little-endian byte encoding of a 32-bit signed value stored by
`*(int32_t *)p = v` (two's complement). -/
def int32le (v : Int) : List Nat :=
  le32 ((v % (4294967296 : Int)).toNat)

/-- Little-endian decoding of (up to) four bytes, as done by reading
`*(uint32_t *)p`. -/
def decodeU32 (bs : List Nat) : Nat :=
  match bs with
  | [] => 0
  | b :: rest => b % 256 + 256 * decodeU32 rest

/-- `store_time`: stamp the current time as last interaction time. -/
def store_time (env : Env) (st : SState) : SState :=
  { st with sol_ := env.now }

/-- `is_client_connected`: transport live and `client_connected` set. -/
def is_client_connected (st : SState) : Bool :=
  st.commConnected && st.status_.client_connected

/-- `is_debugging`: the debug-pause heuristic.  Classification compares
`tick_ - sol_` with the timeout; on the tick path a keepalive slips
through after enough skipped ticks, otherwise the skip counter is
maintained.  Returns the Boolean result, the new state and log events. -/
def is_debugging (env : Env) (is_tick : Bool) (st : SState) :
    Bool × SState × List Event :=
  if !st.debug_check_ then (false, st, [])
  else
    let new_debug : Bool := DEBUG_PAUSE_TIMEOUT ≤ st.tick_ - st.sol_
    let edgeEvs : List Event :=
      if new_debug && !st.is_debug_ then [Event.logInfo "Debugger pause detected."]
      else if !new_debug && st.is_debug_ then [Event.logInfo "Debugger resume detected."]
      else []
    if is_tick then
      if new_debug && st.is_debug_ then
        if DEBUG_PAUSE_TICK_INTERVAL ≤ env.now - st.tick_ &&
            decide (DEBUG_PAUSE_TICK_MIN_SKIP < st.ticks_skipped_) then
          (false, { st with ticks_skipped_ := 0 },
            edgeEvs ++ [Event.logDebug "Keepalive tick."])
        else
          (new_debug,
            { st with
              ticks_skipped_ := st.ticks_skipped_ + 1
              is_debug_ := new_debug },
            edgeEvs)
      else if !new_debug && decide (st.ticks_skipped_ ≠ 0) then
        (new_debug, { st with ticks_skipped_ := 0, is_debug_ := new_debug }, edgeEvs)
      else
        (new_debug, { st with is_debug_ := new_debug }, edgeEvs)
    else
      (new_debug, { st with is_debug_ := new_debug }, edgeEvs)

/-- `cmd_send_announce`: protocol version, plugin version, then the
working directory bytes. -/
def cmd_send_announce (env : Env) : List Event :=
  [Event.send CMD_ANNOUNCE (le32 env.protocolVersion ++ le32 env.pluginVersion ++ env.cwd),
   Event.logInfo "Server announcement sent.",
   Event.logInfo "Hi from cwd"]

/-- `connect`: no-op when the transport is live; otherwise set up the
transport if needed, attempt the connection, and on success set
`client_connected`, clear `client_reconnecting` and announce. -/
def connect (env : Env) (st : SState) : Bool × SState × List Event :=
  if st.commConnected then (true, st, [])
  else
    let ready : Bool := st.commReady || env.setupOk
    let st1 := if st.commReady then st else { st with commReady := env.setupOk }
    let evs1 : List Event := if st.commReady then [] else [Event.commSetup]
    if !ready then (false, st1, evs1)
    else if !env.transportAccept then (false, st1, evs1)
    else
      let st2 := { st1 with
        commConnected := true
        status_ := { st1.status_ with client_connected := true } }
      let logEv :=
        if st2.status_.client_reconnecting then Event.logInfo "Client reconnected."
        else Event.logInfo "Connected to client."
      let st3 := { st2 with status_ := { st2.status_ with client_reconnecting := false } }
      (true, st3, evs1 ++ [Event.setOn false, logEv] ++ cmd_send_announce env)

/-- `disconnect`: idempotent when not connected; otherwise one of the
three outcomes (expected, client-initiated, unexpected), then transport
teardown, re-setup, and clearing of `client_connected`. -/
def disconnect (env : Env) (context : Option String) (expected : Bool)
    (st : SState) : SState × List Event :=
  if !is_client_connected st then (st, [])
  else
    let branch : SState × List Event :=
      if expected then
        (st, [Event.logInfo "Client disconnected.", Event.sigDisconnect])
      else if st.status_.client_disconnecting then
        ({ st with
            status_ := { st.status_ with
              client_started := false
              client_disconnecting := false }
            natives_ := []
            callbacks_ := [] },
         [Event.logInfo "Client disconnected.", Event.sigDisconnect])
      else
        ({ st with
            status_ := { st.status_ with client_started := false }
            natives_ := []
            callbacks_ := [] },
         [Event.logError ("Unexpected disconnect of client. " ++ context.getD ""),
          Event.sigError])
    ({ branch.1 with
        commConnected := false
        commReady := env.setupOk
        status_ := { branch.1.status_ with client_connected := false } },
     branch.2 ++ [Event.commDisconnect, Event.commSetup])

/-- `terminate`: an unexpected disconnect with a context string. -/
def terminate (env : Env) (context : Option String) (st : SState) :
    SState × List Event :=
  disconnect env context false st

/-- `cmd_ping` handler: reply with a pong. -/
def cmd_ping (_buf : List Nat) : List Event :=
  [Event.send CMD_PONG []]

/-- `cmd_print` handler: forward the payload to the log. -/
def cmd_print (buf : List Nat) : List Event :=
  [Event.logPrint buf]

/-- `cmd_alive` handler: no-op. -/
def cmd_alive (_buf : List Nat) : List Event :=
  []

/-- `cmd_register_call` handler: record the callback registration. -/
def cmd_register_call (buf : List Nat) (st : SState) : SState × List Event :=
  ({ st with callbacks_ := st.callbacks_ ++ [buf] },
   [Event.logDebug "Register call", Event.didRegisterCall buf])

/-- `cmd_find_native` handler: echo the 2-byte correlation id, then the
resolved handle as a little-endian `int32`, sent with the `CMD_RESPONSE`
opcode (as the source does). -/
def cmd_find_native (env : Env) (buf : List Nat) : List Event :=
  [Event.logDebug "Find native",
   Event.send CMD_RESPONSE (buf.take 2 ++ int32le (env.get_handle (buf.drop 2)))]

/-- `cmd_invoke_native` handler: strip the correlation id, invoke the
native, and send the id followed by the invocation result with the
`CMD_RESPONSE` opcode. -/
def cmd_invoke_native (env : Env) (buf : List Nat) : List Event :=
  [Event.didInvokeNative (buf.drop 2),
   Event.logDebug "Native invoked",
   Event.send CMD_RESPONSE (buf.take 2 ++ env.invoke_result (buf.drop 2))]

/-- `cmd_reconnect` handler: set `client_reconnecting` and force an
expected disconnect. -/
def cmd_reconnect (env : Env) (_buf : List Nat) (st : SState) :
    SState × List Event :=
  let st1 := { st with status_ := { st.status_ with client_reconnecting := true } }
  ((disconnect env none true st1).1,
   Event.logInfo "The gamemode is reconnecting." :: (disconnect env none true st1).2)

/-- `cmd_disconnect` handler: set `client_disconnecting`. -/
def cmd_disconnect (_buf : List Nat) (st : SState) : SState × List Event :=
  ({ st with status_ := { st.status_ with client_disconnecting := true } },
   [Event.logInfo "The gamemode is disconnecting."])

mutual

/-- `cmd_start` handler: set `client_started`, then dispatch on the
one-byte start mode (absent payload = mode 0).  Mode 2 ("fake gmx")
synthesizes an `OnGameModeInit` public call and blocks on the reply via
`cmd_receive_unhandled`. -/
def cmd_start (fuel : Nat) (env : Env) (buf : List Nat) (st : SState)
    (script : List Recv) : Option RunOut :=
  match fuel with
  | 0 => none
  | fuel + 1 =>
    let st1 := { st with status_ := { st.status_ with client_started := true } }
    let evs0 := [Event.logInfo "The gamemode has started."]
    let mode := if buf.isEmpty then 0 else buf.headI
    if mode = 0 then
      some ⟨st1, script, evs0 ++ [Event.logDebug "Using none start method"]⟩
    else if mode = 1 then
      let evs1 := evs0 ++ [Event.logDebug "Using gmx start method"]
      if st1.status_.server_received_init then
        some ⟨st1, script,
          evs1 ++ [Event.logDebug "Sending gmx to attach game mode.", Event.rcon "gmx"]⟩
      else some ⟨st1, script, evs1⟩
    else if mode = 2 then
      let evs1 := evs0 ++ [Event.logDebug "Using fake gmx start method"]
      if st1.status_.server_received_init then
        let st2 := { st1 with
          status_ := { st1.status_ with client_received_init := true } }
        match env.fill_call_buffer "OnGameModeInit" with
        | none => some ⟨st2, script, evs1⟩
        | some callBuf =>
          let evs2 := evs1 ++ [Event.send CMD_PUBLIC_CALL callBuf]
          match cmd_receive_unhandled fuel env st2 script with
          | none => none
          | some lo =>
            if lo.ok then
              match lo.resp with
              | some r =>
                if r.length = 0 then
                  some ⟨lo.st, lo.script, evs2 ++ lo.evs ++
                    [Event.logError "Received no response to callback OnGameModeInit."]⟩
                else
                  some ⟨lo.st, lo.script, evs2 ++ lo.evs ++ [Event.freeBuf r]⟩
              | none =>
                some ⟨lo.st, lo.script, evs2 ++ lo.evs ++
                  [Event.logError "Received no response to callback OnGameModeInit."]⟩
            else
              some ⟨lo.st, lo.script, evs2 ++ lo.evs ++
                [Event.logError "Received no response to callback OnGameModeInit."]⟩
      else some ⟨st1, script, evs1⟩
    else
      some ⟨st1, script, evs0 ++ [Event.logError "Invalid game mode start mode"]⟩

/-- `cmd_process`: dispatch a received opcode to its handler (returning
`handled`, leaving the reply slot untouched); the response opcode and
every unmapped opcode yield `unhandled`, copying a nonempty payload into
the reply slot. -/
def cmd_process (fuel : Nat) (env : Env) (cmd : Nat) (buf : List Nat)
    (st : SState) (script : List Recv) : Option ProcOut :=
  match fuel with
  | 0 => none
  | fuel + 1 =>
    if cmd = CMD_PING then some ⟨.handled, none, st, script, cmd_ping buf⟩
    else if cmd = CMD_PRINT then some ⟨.handled, none, st, script, cmd_print buf⟩
    else if cmd = CMD_REGISTER_CALL then
      some ⟨.handled, none, (cmd_register_call buf st).1, script,
        (cmd_register_call buf st).2⟩
    else if cmd = CMD_FIND_NATIVE then
      some ⟨.handled, none, st, script, cmd_find_native env buf⟩
    else if cmd = CMD_INVOKE_NATIVE then
      some ⟨.handled, none, st, script, cmd_invoke_native env buf⟩
    else if cmd = CMD_RECONNECT then
      some ⟨.handled, none, (cmd_reconnect env buf st).1, script,
        (cmd_reconnect env buf st).2⟩
    else if cmd = CMD_DISCONNECT then
      some ⟨.handled, none, (cmd_disconnect buf st).1, script,
        (cmd_disconnect buf st).2⟩
    else if cmd = CMD_START then
      match cmd_start fuel env buf st script with
      | none => none
      | some ro => some ⟨.handled, none, ro.st, ro.script, ro.evs⟩
    else if cmd = CMD_ALIVE then some ⟨.handled, none, st, script, cmd_alive buf⟩
    else
      some ⟨.unhandled, if buf.isEmpty then none else some buf, st, script, []⟩

/-- `cmd_receive_one`: lazily connect, poll the transport once, and on
a framed command stamp the interaction time and process it. -/
def cmd_receive_one (fuel : Nat) (env : Env) (st : SState)
    (script : List Recv) : Option ProcOut :=
  match fuel with
  | 0 => none
  | fuel + 1 =>
    let c0 := connect env st
    let st1 := c0.2.1
    let evs1 := c0.2.2
    if !c0.1 then some ⟨.conn_dead, none, st1, script, evs1⟩
    else
      match script with
      | [] => some ⟨.no_cmd, none, st1, [], evs1⟩
      | Recv.noCmd :: rest => some ⟨.no_cmd, none, st1, rest, evs1⟩
      | Recv.dead :: rest => some ⟨.conn_dead, none, st1, rest, evs1⟩
      | Recv.cmd c p :: rest =>
        let st2 := store_time env st1
        match cmd_process fuel env c p st2 rest with
        | none => none
        | some po => some ⟨po.stat, po.resp, po.st, po.script, evs1 ++ po.evs⟩

/-- `cmd_receive_unhandled`: pump `cmd_receive_one`, discarding
`handled` and `no_cmd` results, until `unhandled` or `conn_dead`;
return `true` exactly for `unhandled`. -/
def cmd_receive_unhandled (fuel : Nat) (env : Env) (st : SState)
    (script : List Recv) : Option LoopOut :=
  match fuel with
  | 0 => none
  | fuel + 1 =>
    match cmd_receive_one fuel env st script with
    | none => none
    | some po =>
      if po.stat = CmdStatus.handled ∨ po.stat = CmdStatus.no_cmd then
        match cmd_receive_unhandled fuel env po.st po.script with
        | none => none
        | some lo => some ⟨lo.ok, lo.resp, lo.st, lo.script, po.evs ++ lo.evs⟩
      else
        some ⟨po.stat == CmdStatus.unhandled, po.resp, po.st, po.script, po.evs⟩

end

/-- The receive-drain loop at the end of `tick`: pump `cmd_receive_one`
until `no_cmd` or `conn_dead`.  The C loop keeps `response` across
iterations without resetting it after a free, so the (possibly stale)
pointer is threaded through as `respVar`. -/
def tick_drain (fuel : Nat) (env : Env) (st : SState) (script : List Recv)
    (respVar : Option (List Nat)) : Option RunOut :=
  match fuel with
  | 0 => none
  | fuel + 1 =>
    match cmd_receive_one fuel env st script with
    | none => none
    | some po =>
      let respVar1 := match po.resp with
        | some r => some r
        | none => respVar
      let evsR : List Event := match respVar1 with
        | some r => [Event.logError "Unhandled response in tick.", Event.freeBuf r]
        | none => []
      if po.stat = CmdStatus.no_cmd ∨ po.stat = CmdStatus.conn_dead then
        some ⟨po.st, po.script, po.evs ++ evsR⟩
      else
        match tick_drain fuel env po.st po.script respVar1 with
        | none => none
        | some ro => some ⟨ro.st, ro.script, po.evs ++ evsR ++ ro.evs⟩

/-- `tick`: under the lock, if connected, started, initialized and not
mid-reconnect or mid-disconnect, send a tick unless the debug-pause
heuristic suppresses it, then drain pending incoming commands. -/
def tick (fuel : Nat) (env : Env) (st : SState) (script : List Recv) :
    Option RunOut :=
  let gate := is_client_connected st && st.status_.client_started &&
    st.status_.client_received_init && !st.status_.client_reconnecting &&
    !st.status_.client_disconnecting
  let sendPhase : SState × List Event :=
    if gate then
      let d := is_debugging env true st
      if !d.1 then
        ({ d.2.1 with tick_ := env.now },
         [Event.setOn false] ++ d.2.2 ++ [Event.send CMD_TICK []])
      else (d.2.1, [Event.setOn false] ++ d.2.2)
    else (st, [])
  match tick_drain fuel env sendPhase.1 script none with
  | none => none
  | some ro =>
    some ⟨ro.st, ro.script, [Event.lockAcquire] ++ sendPhase.2 ++ ro.evs ++
      [Event.lockRelease]⟩

/-- The tail of `public_call` after its `cmd_receive_unhandled` call
(source lines 440 to 455): on a missing or empty reply log and unlock;
otherwise unlock, read the 4-byte return value when the reply has at
least 5 bytes, a non-zero first byte and the caller supplied a return
slot, and free the reply buffer. -/
def public_call_tail (recvOk : Bool) (resp : Option (List Nat))
    (hasRetval : Bool) (name : String) : List Event × Option Nat :=
  match recvOk, resp with
  | true, some r =>
    if r.length = 0 then
      ([Event.logError ("Received no response to callback " ++ name ++ "."),
        Event.lockRelease], none)
    else
      ([Event.lockRelease, Event.freeBuf r],
       if 5 ≤ r.length && decide (r.headI ≠ 0) && hasRetval then
         some (decodeU32 ((r.drop 1).take 4))
       else none)
  | _, _ =>
    ([Event.logError ("Received no response to callback " ++ name ++ "."),
      Event.lockRelease], none)

/-- `public_call`: update `server_received_init` from the callback
name, gate on the connection flags, the init handshake (unless this is
the init callback itself) and the debug-pause heuristic, then serialize
the call, send it under the lock and wait for the reply. -/
def public_call (fuel : Nat) (env : Env) (name : String) (hasRetval : Bool)
    (st : SState) (script : List Recv) : Option CallOut :=
  let is_gmi := name = "OnGameModeInit"
  let is_gme := ¬is_gmi ∧ name = "OnGameModeExit"
  let st1 :=
    if is_gmi then
      { st with status_ := { st.status_ with server_received_init := true } }
    else if is_gme then
      { st with status_ := { st.status_ with server_received_init := false } }
    else st
  if !is_client_connected st1 || !st1.status_.client_started ||
      st1.status_.client_reconnecting || st1.status_.client_disconnecting then
    some ⟨st1, script, [], none⟩
  else
    let evs0 := [Event.setOn false]
    let st2 :=
      if is_gmi then
        { st1 with status_ := { st1.status_ with client_received_init := true } }
      else st1
    if ¬is_gmi ∧ st2.status_.client_received_init = false then
      some ⟨st2, script, evs0, none⟩
    else
      let d := is_debugging env false st2
      let st3 := d.2.1
      let evs1 := d.2.2
      if d.1 then some ⟨st3, script, evs0 ++ evs1, none⟩
      else
        match env.fill_call_buffer name with
        | none => some ⟨st3, script, evs0 ++ evs1, none⟩
        | some callBuf =>
          let evs2 := evs0 ++ evs1 ++
            [Event.lockAcquire, Event.send CMD_PUBLIC_CALL callBuf]
          match cmd_receive_unhandled fuel env st3 script with
          | none => none
          | some lo =>
            some ⟨lo.st, lo.script,
              evs2 ++ lo.evs ++ (public_call_tail lo.ok lo.resp hasRetval name).1,
              (public_call_tail lo.ok lo.resp hasRetval name).2⟩

/-- The constructor-established state of a fresh bridge instance: no
flags set, empty caches, zeroed timers; the constructor signals
"starting" and sets up the transport. -/
def initial_state (env : Env) (debug_check : Bool) : SState × List Event :=
  ({ status_ := ⟨false, false, false, false, false, false⟩
     natives_ := []
     callbacks_ := []
     sol_ := 0
     tick_ := 0
     is_debug_ := false
     ticks_skipped_ := 0
     debug_check_ := debug_check
     commConnected := false
     commReady := env.setupOk },
   [Event.sigStarting, Event.commSetup])

/-- A fixed environment for concrete runs: every native resolves to
handle -1, native invocations echo their arguments, and callback
serialization always succeeds with the buffer `[7, 7]`. -/
def env0 : Env :=
  { now := 0
    setupOk := true
    transportAccept := true
    protocolVersion := 1
    pluginVersion := 2
    cwd := [97]
    get_handle := fun _ => -1
    invoke_result := fun a => a
    fill_call_buffer := fun _ => some [7, 7] }

/-- A connected, started bridge state with a live transport. -/
def st_conn : SState :=
  { status_ := ⟨true, true, false, false, false, false⟩
    natives_ := [[1]]
    callbacks_ := [[2]]
    sol_ := 0
    tick_ := 0
    is_debug_ := false
    ticks_skipped_ := 0
    debug_check_ := false
    commConnected := true
    commReady := true }

/-- The opcodes of the received-command table (those `MAP_COMMAND` maps
to a handler in `cmd_process`). -/
def mapped_opcodes : List Nat :=
  [CMD_PING, CMD_PRINT, CMD_REGISTER_CALL, CMD_FIND_NATIVE, CMD_INVOKE_NATIVE,
   CMD_RECONNECT, CMD_DISCONNECT, CMD_START, CMD_ALIVE]

/-- The status-flag invariant of the spec: `client_received_init`
implies `client_started`. -/
def received_init_implies_started (st : SState) : Prop :=
  st.status_.client_received_init = true → st.status_.client_started = true

/-- The registration from the C1 interleaving scenario applied to
`st_conn`. -/
def st_regd : SState :=
  { st_conn with callbacks_ := [[2], [65]] }

/-- A connected state with every client flag and `server_received_init`
set (reachable: connect, start, then a public `OnGameModeInit` call). -/
def st_all : SState :=
  { st_conn with status_ := ⟨true, true, true, false, false, true⟩ }

/-- A connected state whose client has not started yet. -/
def st_ns : SState :=
  { st_conn with status_ := ⟨true, false, false, false, false, false⟩ }

/-- A connected state with `debug_check_` enabled and both timers at 0. -/
def st_dbg : SState :=
  { st_conn with debug_check_ := true }

/-- A paused-classified state (last tick at 10, last interaction at 0)
with exactly 50 suppressed ticks. -/
def st_keep50 : SState :=
  { st_conn with
    status_ := ⟨true, true, true, false, false, false⟩
    debug_check_ := true
    sol_ := 0
    tick_ := 10
    is_debug_ := true
    ticks_skipped_ := 50 }

/-- The run environment at clock value 6. -/
def env6 : Env := { env0 with now := 6 }

/-- The run environment at clock value 17. -/
def env17 : Env := { env0 with now := 17 }

/-- C4: processing a `find_native` command with correlation id 0x2A
whose native name resolves to handle -1 sends exactly one command whose
payload is exactly `[0x2A, 0x00, 0xFF, 0xFF, 0xFF, 0xFF]` (correlation
id little-endian u16, then the handle as little-endian i32 = -1) — but
with the `CMD_RESPONSE` opcode `0x03`, not the documented reply opcode
`CMD_REPLY = 0x14` that the claim states, so the claim is right about
the payload and the code contradicts its own opcode table about the
opcode. -/
theorem C4_find_native_reply :
    cmd_find_native env0 [0x2A, 0x00, 102, 111, 111] =
      [Event.logDebug "Find native",
       Event.send CMD_RESPONSE [0x2A, 0x00, 0xFF, 0xFF, 0xFF, 0xFF]] ∧
    env0.get_handle [102, 111, 111] = -1 ∧
    CMD_RESPONSE = 0x03 ∧ CMD_REPLY = 0x14 ∧ CMD_RESPONSE ≠ CMD_REPLY := by
  refine ⟨by decide, rfl, rfl, rfl, by decide⟩

/-- C2 counterexample: a `response` command with an empty payload is
processed to `unhandled` with the caller's reply slot left untouched
(`none`), not a freshly allocated byte-exact copy of the (empty)
payload; the two outcomes are distinct. -/
theorem C2_empty_response_counterexample :
    cmd_process 1 env0 CMD_RESPONSE [] st_conn [] =
      some ⟨CmdStatus.unhandled, none, st_conn, [], []⟩ ∧
    (some (⟨CmdStatus.unhandled, none, st_conn, [], []⟩ : ProcOut) ≠
      some (⟨CmdStatus.unhandled, some [], st_conn, [], []⟩ : ProcOut)) := by
  refine ⟨by decide, by decide⟩

/-- C2 (amended): every opcode of the received-command table is
processed to `handled` with no payload handed back; the response opcode
and any opcode outside the table are processed to `unhandled`, handing
back a freshly copied payload exactly when the payload is nonempty (an
empty payload leaves the caller's reply slot untouched). -/
theorem C2_process_table (fuel : Nat) (env : Env) (c : Nat) (buf : List Nat)
    (st : SState) (script : List Recv) :
    (c ∈ mapped_opcodes → ∀ po, cmd_process fuel env c buf st script = some po →
      po.stat = CmdStatus.handled ∧ po.resp = none) ∧
    (c ∉ mapped_opcodes →
      cmd_process (fuel + 1) env c buf st script =
        some ⟨CmdStatus.unhandled, if buf.isEmpty then none else some buf,
          st, script, []⟩) := by
  constructor
  · intro hc po hpo
    match fuel with
    | 0 => simp [cmd_process] at hpo
    | f + 1 =>
      simp [mapped_opcodes, CMD_PING, CMD_PRINT, CMD_REGISTER_CALL,
        CMD_FIND_NATIVE, CMD_INVOKE_NATIVE, CMD_RECONNECT, CMD_DISCONNECT,
        CMD_START, CMD_ALIVE] at hc
      rcases hc with rfl | rfl | rfl | rfl | rfl | rfl | rfl | rfl | rfl
      · simp [cmd_process, CMD_PING] at hpo
        cases po
        simp_all
      · simp [cmd_process, CMD_PING, CMD_PRINT] at hpo
        cases po
        simp_all
      · simp [cmd_process, CMD_PING, CMD_PRINT, CMD_REGISTER_CALL] at hpo
        cases po
        simp_all
      · simp [cmd_process, CMD_PING, CMD_PRINT, CMD_REGISTER_CALL,
          CMD_FIND_NATIVE] at hpo
        cases po
        simp_all
      · simp [cmd_process, CMD_PING, CMD_PRINT, CMD_REGISTER_CALL,
          CMD_FIND_NATIVE, CMD_INVOKE_NATIVE] at hpo
        cases po
        simp_all
      · simp [cmd_process, CMD_PING, CMD_PRINT, CMD_REGISTER_CALL,
          CMD_FIND_NATIVE, CMD_INVOKE_NATIVE, CMD_RECONNECT] at hpo
        cases po
        simp_all
      · simp [cmd_process, CMD_PING, CMD_PRINT, CMD_REGISTER_CALL,
          CMD_FIND_NATIVE, CMD_INVOKE_NATIVE, CMD_RECONNECT,
          CMD_DISCONNECT] at hpo
        cases po
        simp_all
      · cases hro : cmd_start f env buf st script with
        | none =>
          simp [cmd_process, CMD_PING, CMD_PRINT, CMD_REGISTER_CALL,
            CMD_FIND_NATIVE, CMD_INVOKE_NATIVE, CMD_RECONNECT,
            CMD_DISCONNECT, CMD_START, hro] at hpo
        | some ro =>
          simp [cmd_process, CMD_PING, CMD_PRINT, CMD_REGISTER_CALL,
            CMD_FIND_NATIVE, CMD_INVOKE_NATIVE, CMD_RECONNECT,
            CMD_DISCONNECT, CMD_START, hro] at hpo
          cases po
          simp_all
      · simp [cmd_process, CMD_PING, CMD_PRINT, CMD_REGISTER_CALL,
          CMD_FIND_NATIVE, CMD_INVOKE_NATIVE, CMD_RECONNECT,
          CMD_DISCONNECT, CMD_START, CMD_ALIVE] at hpo
        cases po
        simp_all
  · intro hc
    simp [mapped_opcodes, CMD_PING, CMD_PRINT, CMD_REGISTER_CALL,
      CMD_FIND_NATIVE, CMD_INVOKE_NATIVE, CMD_RECONNECT, CMD_DISCONNECT,
      CMD_START, CMD_ALIVE] at hc
    obtain ⟨h1, h2, h5, h6, h7, h4, h9, h8, h16⟩ := hc
    simp [cmd_process, CMD_PING, CMD_PRINT, CMD_REGISTER_CALL,
      CMD_FIND_NATIVE, CMD_INVOKE_NATIVE, CMD_RECONNECT, CMD_DISCONNECT,
      CMD_START, CMD_ALIVE, h1, h2, h5, h6, h7, h4, h9, h8, h16]

/-- C2 witness: a response command with a nonempty payload surfaces an
exact copy of the payload. -/
theorem C2_process_table_witness :
    cmd_process 2 env0 CMD_RESPONSE [1, 2] st_conn [] =
      some ⟨CmdStatus.unhandled, some [1, 2], st_conn, [], []⟩ :=
  ((C2_process_table 1 env0 CMD_RESPONSE [1, 2] st_conn []).2 (by decide)).trans
    (by decide)

/-- C9 counterexample: processing a `start` command with the invalid
mode byte 3 on a not-yet-started client sets the `client_started`
status flag (because `cmd_start` sets it before inspecting the mode),
contradicting the claim that no status flag changes. -/
theorem C9_invalid_mode_counterexample :
    st_ns.status_.client_started = false ∧
    cmd_start 2 env0 [3] st_ns [] =
      some ⟨{ st_ns with status_ := { st_ns.status_ with client_started := true } },
        [],
        [Event.logInfo "The gamemode has started.",
         Event.logError "Invalid game mode start mode"]⟩ ∧
    ({ st_ns with status_ := { st_ns.status_ with client_started := true } } :
      SState).status_.client_started = true := by
  refine ⟨rfl, by decide, rfl⟩

/-- C9 (amended): a `start` command whose mode byte is neither 0, 1 nor
2 sets `client_started` (as every start command does) and otherwise
only logs: no command is sent, no other state field changes, the script
is not consumed, and no host restart or synthesized callback occurs. -/
theorem C9_cmd_start_invalid_mode (fuel : Nat) (env : Env) (m : Nat)
    (tl : List Nat) (st : SState) (script : List Recv)
    (h : ¬(m = 0 ∨ m = 1 ∨ m = 2)) :
    cmd_start (fuel + 1) env (m :: tl) st script =
      some ⟨{ st with status_ := { st.status_ with client_started := true } },
        script,
        [Event.logInfo "The gamemode has started.",
         Event.logError "Invalid game mode start mode"]⟩ := by
  push_neg at h
  obtain ⟨h0, h1, h2⟩ := h
  simp [cmd_start, h0, h1, h2]

/-- C9 witness: the amended theorem at mode byte 7. -/
theorem C9_cmd_start_invalid_mode_witness :
    cmd_start 1 env0 [7] st_conn [] =
      some ⟨{ st_conn with
          status_ := { st_conn.status_ with client_started := true } },
        [],
        [Event.logInfo "The gamemode has started.",
         Event.logError "Invalid game mode start mode"]⟩ :=
  C9_cmd_start_invalid_mode 0 env0 7 [] st_conn [] (by decide)

/-- On the non-tick path with debug checking enabled, `is_debugging`
returns the classification `tick_ - sol_ >= timeout`, records it in
`is_debug_`, and logs exactly the classification edges. -/
theorem is_debugging_not_tick (env : Env) (st : SState)
    (hc : st.debug_check_ = true) :
    is_debugging env false st =
      (decide (DEBUG_PAUSE_TIMEOUT ≤ st.tick_ - st.sol_),
       { st with is_debug_ := decide (DEBUG_PAUSE_TIMEOUT ≤ st.tick_ - st.sol_) },
       if decide (DEBUG_PAUSE_TIMEOUT ≤ st.tick_ - st.sol_) && !st.is_debug_ then
         [Event.logInfo "Debugger pause detected."]
       else if !decide (DEBUG_PAUSE_TIMEOUT ≤ st.tick_ - st.sol_) && st.is_debug_ then
         [Event.logInfo "Debugger resume detected."]
       else []) := by
  simp [is_debugging, hc]

/-- With debug checking enabled, a single `is_debugging` call logs the
pause edge exactly when the classification flips to paused and the
resume edge exactly when it flips back, on both paths. -/
theorem is_debugging_edge_count (env : Env) (tk : Bool) (st : SState)
    (hc : st.debug_check_ = true) :
    ((is_debugging env tk st).2.2.count (Event.logInfo "Debugger pause detected.") =
      if decide (DEBUG_PAUSE_TIMEOUT ≤ st.tick_ - st.sol_) && !st.is_debug_ then 1
      else 0) ∧
    ((is_debugging env tk st).2.2.count (Event.logInfo "Debugger resume detected.") =
      if !decide (DEBUG_PAUSE_TIMEOUT ≤ st.tick_ - st.sol_) && st.is_debug_ then 1
      else 0) := by
  simp only [is_debugging, hc, Bool.not_true, Bool.false_eq_true, if_false]
  split_ifs <;> simp_all

/-- C6 counterexample: with last interaction at time 0 and current time
6 (elapsed current-time-minus-interaction is 6, above the timeout 5)
but the last stamped tick also at time 0, `is_debugging` classifies the
peer as not paused — the code compares `tick_ - sol_`, not the current
time against `sol_`, so the claim read on the current time is false
(also at current time 100). -/
theorem C6_pause_classification_counterexample :
    st_dbg.debug_check_ = true ∧ st_dbg.sol_ = 0 ∧ st_dbg.tick_ = 0 ∧
    env6.now - st_dbg.sol_ = 6 ∧
    (is_debugging env6 false st_dbg).1 = false ∧
    (is_debugging { env0 with now := 100 } false st_dbg).1 = false := by
  exact ⟨rfl, rfl, rfl, by decide, by decide, by decide⟩

/-- C6 (amended): `is_debugging` classifies the peer as paused exactly
when the last stamped tick time minus the last interaction time is at
least the 5-unit timeout (not the current time minus the interaction
time): with last-interaction time T it returns false when the last
stamped tick is T+4 and true when it is T+6; each pause or resume edge
is logged exactly once per call that crosses it, and an immediately
repeated call logs no further edge. -/
theorem C6_pause_classification :
    (∀ env st, st.debug_check_ = true →
      (is_debugging env false st).1 =
        decide (DEBUG_PAUSE_TIMEOUT ≤ st.tick_ - st.sol_)) ∧
    (∀ env st T, st.debug_check_ = true → st.sol_ = T → st.tick_ = T + 4 →
      (is_debugging env false st).1 = false) ∧
    (∀ env st T, st.debug_check_ = true → st.sol_ = T → st.tick_ = T + 6 →
      (is_debugging env false st).1 = true) ∧
    (∀ env tk st, st.debug_check_ = true →
      ((is_debugging env tk st).2.2.count (Event.logInfo "Debugger pause detected.") =
        if decide (DEBUG_PAUSE_TIMEOUT ≤ st.tick_ - st.sol_) && !st.is_debug_ then 1
        else 0) ∧
      ((is_debugging env tk st).2.2.count (Event.logInfo "Debugger resume detected.") =
        if !decide (DEBUG_PAUSE_TIMEOUT ≤ st.tick_ - st.sol_) && st.is_debug_ then 1
        else 0)) ∧
    (∀ env env2 st, st.debug_check_ = true →
      (is_debugging env2 false (is_debugging env false st).2.1).2.2.count
          (Event.logInfo "Debugger pause detected.") = 0 ∧
      (is_debugging env2 false (is_debugging env false st).2.1).2.2.count
          (Event.logInfo "Debugger resume detected.") = 0) := by
  refine ⟨?_, ?_, ?_, ?_, ?_⟩
  · intro env st hc
    rw [is_debugging_not_tick env st hc]
  · intro env st T hc hsol htick
    rw [is_debugging_not_tick env st hc, hsol, htick]
    have h4 : T + 4 - T = (4 : Int) := by ring
    rw [h4]
    rfl
  · intro env st T hc hsol htick
    rw [is_debugging_not_tick env st hc, hsol, htick]
    have h6 : T + 6 - T = (6 : Int) := by ring
    rw [h6]
    rfl
  · intro env tk st hc
    exact is_debugging_edge_count env tk st hc
  · intro env env2 st hc
    rw [is_debugging_not_tick env st hc]
    have hc2 : ({ st with
        is_debug_ := decide (DEBUG_PAUSE_TIMEOUT ≤ st.tick_ - st.sol_) } :
        SState).debug_check_ = true := hc
    rw [is_debugging_not_tick env2 _ hc2]
    by_cases hnd : DEBUG_PAUSE_TIMEOUT ≤ st.tick_ - st.sol_ <;> simp [hnd]

/-- C6 witness: at last-interaction time 0, pause classification is
false with the tick stamp at 4 and true with the tick stamp at 6. -/
theorem C6_pause_classification_witness :
    (is_debugging env0 false { st_dbg with tick_ := 4 }).1 = false ∧
    (is_debugging env0 false { st_dbg with tick_ := 6 }).1 = true := by
  constructor
  · exact C6_pause_classification.2.1 env0 { st_dbg with tick_ := 4 } 0 rfl rfl
      (by decide)
  · exact C6_pause_classification.2.2.1 env0 { st_dbg with tick_ := 6 } 0 rfl rfl
      (by decide)

/-- `connect` is a no-op returning success when the transport is live. -/
theorem connect_of_connected (env : Env) (st : SState)
    (h : st.commConnected = true) : connect env st = (true, st, []) := by
  simp [connect, h]

/-- One receive poll on an empty script with a live transport reports
`no_cmd` and changes nothing. -/
theorem cmd_receive_one_nil (fuel : Nat) (env : Env) (st : SState)
    (h : st.commConnected = true) :
    cmd_receive_one (fuel + 1) env st [] =
      some ⟨CmdStatus.no_cmd, none, st, [], []⟩ := by
  simp [cmd_receive_one, connect, h]

/-- The tick drain loop on an empty script with a live transport stops
at once with no effect. -/
theorem tick_drain_nil (fuel : Nat) (env : Env) (st : SState)
    (h : st.commConnected = true) :
    tick_drain (fuel + 2) env st [] none = some ⟨st, [], []⟩ := by
  rw [tick_drain, cmd_receive_one_nil fuel env st h]
  rfl

/-- The keepalive branch of `is_debugging`: paused classification, a
previously paused flag, at least the tick interval since the last sent
tick and strictly more than the minimum skipped ticks let the tick
through with the skip counter reset. -/
theorem is_debugging_keepalive (env : Env) (st : SState)
    (hc : st.debug_check_ = true) (hd : st.is_debug_ = true)
    (hp : DEBUG_PAUSE_TIMEOUT ≤ st.tick_ - st.sol_)
    (hi : DEBUG_PAUSE_TICK_INTERVAL ≤ env.now - st.tick_)
    (hs : DEBUG_PAUSE_TICK_MIN_SKIP < st.ticks_skipped_) :
    is_debugging env true st =
      (false, { st with ticks_skipped_ := 0 },
        [Event.logDebug "Keepalive tick."]) := by
  simp [is_debugging, hc, hd, hp, hi, hs]

/-- The suppression branch of `is_debugging`: paused classification and
a previously paused flag with the keepalive condition not met suppress
the tick and increment the skip counter. -/
theorem is_debugging_suppressed (env : Env) (st : SState)
    (hc : st.debug_check_ = true) (hd : st.is_debug_ = true)
    (hp : DEBUG_PAUSE_TIMEOUT ≤ st.tick_ - st.sol_)
    (hk : (decide (DEBUG_PAUSE_TICK_INTERVAL ≤ env.now - st.tick_) &&
      decide (DEBUG_PAUSE_TICK_MIN_SKIP < st.ticks_skipped_)) = false) :
    is_debugging env true st =
      (true, { st with ticks_skipped_ := st.ticks_skipped_ + 1, is_debug_ := true },
        []) := by
  simp [is_debugging, hc, hd, hp, hk]

/-- C7 counterexample: in a paused state with exactly 50 suppressed
ticks and 7 time units since the last sent tick, the next `tick` call
is still suppressed (no `CMD_TICK` sent) and the counter moves to 51 —
`is_debugging` requires strictly more than `DEBUG_PAUSE_TICK_MIN_SKIP`
(50) skipped ticks, so "once 50 ticks have been suppressed" is not
enough. -/
theorem C7_keepalive_counterexample :
    st_keep50.ticks_skipped_ = DEBUG_PAUSE_TICK_MIN_SKIP ∧
    env17.now - st_keep50.tick_ = DEBUG_PAUSE_TICK_INTERVAL ∧
    tick 3 env17 st_keep50 [] =
      some ⟨{ st_keep50 with ticks_skipped_ := 51 }, [],
        [Event.lockAcquire, Event.setOn false, Event.lockRelease]⟩ ∧
    Event.send CMD_TICK [] ∉
      [Event.lockAcquire, Event.setOn false, Event.lockRelease] := by
  exact ⟨rfl, by decide, by decide, by decide⟩

/-- C7 (amended): while the peer is classified paused, ticks are
suppressed and the skip counter is incremented, except that once
strictly more than 50 ticks have been suppressed and at least 7 time
units have elapsed since the last sent tick, the next tick call is let
through as a keepalive (the tick command is sent) with the counter
reset to 0; the counter is also reset whenever the peer is not
classified paused. -/
theorem C7_keepalive_throttling :
    (∀ env st, st.debug_check_ = true → st.is_debug_ = true →
      DEBUG_PAUSE_TIMEOUT ≤ st.tick_ - st.sol_ →
      DEBUG_PAUSE_TICK_INTERVAL ≤ env.now - st.tick_ →
      DEBUG_PAUSE_TICK_MIN_SKIP < st.ticks_skipped_ →
      is_debugging env true st =
        (false, { st with ticks_skipped_ := 0 },
          [Event.logDebug "Keepalive tick."])) ∧
    (∀ fuel env st script ro,
      (is_client_connected st && st.status_.client_started &&
        st.status_.client_received_init && !st.status_.client_reconnecting &&
        !st.status_.client_disconnecting) = true →
      st.debug_check_ = true → st.is_debug_ = true →
      DEBUG_PAUSE_TIMEOUT ≤ st.tick_ - st.sol_ →
      DEBUG_PAUSE_TICK_INTERVAL ≤ env.now - st.tick_ →
      DEBUG_PAUSE_TICK_MIN_SKIP < st.ticks_skipped_ →
      tick fuel env st script = some ro →
      Event.send CMD_TICK [] ∈ ro.evs) ∧
    (∀ env st, st.debug_check_ = true → st.is_debug_ = true →
      DEBUG_PAUSE_TIMEOUT ≤ st.tick_ - st.sol_ →
      (decide (DEBUG_PAUSE_TICK_INTERVAL ≤ env.now - st.tick_) &&
        decide (DEBUG_PAUSE_TICK_MIN_SKIP < st.ticks_skipped_)) = false →
      is_debugging env true st =
        (true,
         { st with ticks_skipped_ := st.ticks_skipped_ + 1, is_debug_ := true },
         [])) ∧
    (∀ fuel env st,
      (is_client_connected st && st.status_.client_started &&
        st.status_.client_received_init && !st.status_.client_reconnecting &&
        !st.status_.client_disconnecting) = true →
      st.debug_check_ = true → st.is_debug_ = true →
      DEBUG_PAUSE_TIMEOUT ≤ st.tick_ - st.sol_ →
      (decide (DEBUG_PAUSE_TICK_INTERVAL ≤ env.now - st.tick_) &&
        decide (DEBUG_PAUSE_TICK_MIN_SKIP < st.ticks_skipped_)) = false →
      tick (fuel + 2) env st [] =
        some ⟨{ st with ticks_skipped_ := st.ticks_skipped_ + 1, is_debug_ := true },
          [], [Event.lockAcquire, Event.setOn false, Event.lockRelease]⟩) ∧
    (∀ env st, st.debug_check_ = true →
      ¬(DEBUG_PAUSE_TIMEOUT ≤ st.tick_ - st.sol_) →
      (is_debugging env true st).2.1.ticks_skipped_ = 0) := by
  refine ⟨?_, ?_, ?_, ?_, ?_⟩
  · intro env st hc hd hp hi hs
    exact is_debugging_keepalive env st hc hd hp hi hs
  · intro fuel env st script ro hg hc hd hp hi hs h
    have hdbg := is_debugging_keepalive env st hc hd hp hi hs
    simp only [tick, hg, hdbg, Bool.not_false, if_true] at h
    split at h
    · exact absurd h (by simp)
    · cases h
      simp
  · intro env st hc hd hp hk
    exact is_debugging_suppressed env st hc hd hp hk
  · intro fuel env st hg hc hd hp hk
    have hdbg := is_debugging_suppressed env st hc hd hp hk
    have hcc : st.commConnected = true := by
      have h1 : is_client_connected st = true := by
        simp only [Bool.and_eq_true] at hg
        exact hg.1.1.1.1
      simp only [is_client_connected, Bool.and_eq_true] at h1
      exact h1.1
    have hdr := tick_drain_nil fuel env
      { st with ticks_skipped_ := st.ticks_skipped_ + 1, is_debug_ := true }
      (by simpa using hcc)
    simp only [tick, hg, hdbg, Bool.not_true, if_true, if_false]
    simp [hdr]
  · intro env st hc hnp
    simp [is_debugging, hc, hnp]
    by_cases hz : st.ticks_skipped_ = 0 <;> simp [hz]

/-- C7 witness: with 51 suppressed ticks (strictly above the minimum)
and the interval elapsed, the keepalive goes through and the counter
resets to 0. -/
theorem C7_keepalive_throttling_witness :
    is_debugging env17 true { st_keep50 with ticks_skipped_ := 51 } =
      (false, { st_keep50 with ticks_skipped_ := 0 },
        [Event.logDebug "Keepalive tick."]) := by
  have h := C7_keepalive_throttling.1 env17 { st_keep50 with ticks_skipped_ := 51 }
    rfl rfl (by decide) (by decide) (by decide)
  exact h.trans (by decide)

/-- C1: `cmd_receive_unhandled` discards `handled` and `no_cmd` results
of `cmd_receive_one` and continues, stops at the first `unhandled` or
`conn_dead` result, returning `true` exactly when it stopped on
`unhandled`; on the scripted sequence register_call, invoke_native,
response, exactly one reply (the final response payload) surfaces, and
the register and invoke handlers each fired exactly once, in script
order. -/
theorem C1_receive_until_unhandled :
    (∀ fuel env st script po, cmd_receive_one fuel env st script = some po →
      ((po.stat = CmdStatus.handled ∨ po.stat = CmdStatus.no_cmd) →
        cmd_receive_unhandled (fuel + 1) env st script =
          (cmd_receive_unhandled fuel env po.st po.script).map
            (fun lo => ⟨lo.ok, lo.resp, lo.st, lo.script, po.evs ++ lo.evs⟩)) ∧
      ((po.stat = CmdStatus.unhandled ∨ po.stat = CmdStatus.conn_dead) →
        cmd_receive_unhandled (fuel + 1) env st script =
          some ⟨po.stat == CmdStatus.unhandled, po.resp, po.st, po.script,
            po.evs⟩)) ∧
    cmd_receive_unhandled 10 env0 st_conn
      [Recv.cmd CMD_REGISTER_CALL [65], Recv.cmd CMD_INVOKE_NATIVE [9, 0, 5],
       Recv.cmd CMD_RESPONSE [1, 2, 3]] =
      some ⟨true, some [1, 2, 3], st_regd, [],
        [Event.logDebug "Register call", Event.didRegisterCall [65],
         Event.didInvokeNative [5], Event.logDebug "Native invoked",
         Event.send CMD_RESPONSE [9, 0, 5]]⟩ := by
  constructor
  · intro fuel env st script po hpo
    constructor
    · intro hskip
      simp only [cmd_receive_unhandled, hpo]
      rw [if_pos hskip]
      cases cmd_receive_unhandled fuel env po.st po.script <;> simp
    · intro hstop
      have hns : ¬(po.stat = CmdStatus.handled ∨ po.stat = CmdStatus.no_cmd) := by
        rcases hstop with h | h <;> rw [h] <;> decide
      simp only [cmd_receive_unhandled, hpo]
      rw [if_neg hns]
  · decide

/-- C1 witness: a lone response command stops the loop at once with the
result `true` and its payload surfaced. -/
theorem C1_receive_until_unhandled_witness :
    cmd_receive_unhandled 3 env0 st_conn [Recv.cmd CMD_RESPONSE [1, 2, 3]] =
      some ⟨true, some [1, 2, 3], st_conn, [], []⟩ := by
  have h := (C1_receive_until_unhandled.1 2 env0 st_conn
    [Recv.cmd CMD_RESPONSE [1, 2, 3]]
    ⟨CmdStatus.unhandled, some [1, 2, 3], st_conn, [], []⟩ (by decide)).2
    (Or.inl rfl)
  exact h.trans (by decide)

/-- C5: a reconnect-triggered (expected) disconnect leaves the native
and callback caches untouched, while client-initiated and unexpected
disconnects clear both; all three clear `client_connected` and tear
down then re-arm the transport. -/
theorem C5_disconnect_cases :
    (∀ env buf st, is_client_connected st = true →
      (cmd_reconnect env buf st).1.natives_ = st.natives_ ∧
      (cmd_reconnect env buf st).1.callbacks_ = st.callbacks_ ∧
      (cmd_reconnect env buf st).1.status_.client_connected = false ∧
      (cmd_reconnect env buf st).2 =
        [Event.logInfo "The gamemode is reconnecting.",
         Event.logInfo "Client disconnected.", Event.sigDisconnect,
         Event.commDisconnect, Event.commSetup]) ∧
    (∀ env ctx st, is_client_connected st = true →
      st.status_.client_disconnecting = true →
      (disconnect env ctx false st).1.natives_ = [] ∧
      (disconnect env ctx false st).1.callbacks_ = [] ∧
      (disconnect env ctx false st).1.status_.client_connected = false ∧
      (disconnect env ctx false st).2 =
        [Event.logInfo "Client disconnected.", Event.sigDisconnect,
         Event.commDisconnect, Event.commSetup]) ∧
    (∀ env ctx st, is_client_connected st = true →
      st.status_.client_disconnecting = false →
      (disconnect env ctx false st).1.natives_ = [] ∧
      (disconnect env ctx false st).1.callbacks_ = [] ∧
      (disconnect env ctx false st).1.status_.client_connected = false ∧
      (disconnect env ctx false st).2 =
        [Event.logError ("Unexpected disconnect of client. " ++ ctx.getD ""),
         Event.sigError, Event.commDisconnect, Event.commSetup]) := by
  refine ⟨?_, ?_, ?_⟩
  · intro env buf st h
    have h1 : is_client_connected
        { st with status_ := { st.status_ with client_reconnecting := true } } =
        true := by simpa [is_client_connected] using h
    simp [cmd_reconnect, disconnect, h1]
  · intro env ctx st h hd
    simp [disconnect, h, hd]
  · intro env ctx st h hd
    simp [disconnect, h, hd]

/-- C5 witness: a client-initiated disconnect on a connected state with
`client_disconnecting` set clears both caches. -/
theorem C5_disconnect_cases_witness :
    (disconnect env0 none false
      { st_conn with status_ := ⟨true, true, false, false, true, false⟩ }).1.natives_ =
        [] ∧
    (disconnect env0 none false
      { st_conn with status_ := ⟨true, true, false, false, true, false⟩ }).1.callbacks_ =
        [] ∧
    (disconnect env0 none false
      { st_conn with status_ := ⟨true, true, false, false, true, false⟩ }).1.status_.client_connected =
        false ∧
    (disconnect env0 none false
      { st_conn with status_ := ⟨true, true, false, false, true, false⟩ }).2 =
      [Event.logInfo "Client disconnected.", Event.sigDisconnect,
       Event.commDisconnect, Event.commSetup] :=
  C5_disconnect_cases.2.1 env0 none
    { st_conn with status_ := ⟨true, true, false, false, true, false⟩ }
    (by decide) (by decide)

/-- `is_debugging` emits only log events, never a send. -/
theorem is_debugging_no_send (env : Env) (tk : Bool) (st : SState)
    (c : Nat) (p : List Nat) :
    Event.send c p ∉ (is_debugging env tk st).2.2 := by
  simp only [is_debugging]
  split_ifs <;> simp

/-- A false forwarding gate means: connected, started, neither
reconnecting nor disconnecting. -/
theorem gate_false_elim (st1 : SState)
    (hcond : ¬((!is_client_connected st1 || !st1.status_.client_started ||
      st1.status_.client_reconnecting || st1.status_.client_disconnecting) = true)) :
    is_client_connected st1 = true ∧ st1.status_.client_started = true ∧
    st1.status_.client_reconnecting = false ∧
    st1.status_.client_disconnecting = false := by
  refine ⟨?_, ?_, ?_, ?_⟩
  · cases hcc : is_client_connected st1 <;> simp [hcc] at hcond ⊢
  · cases hcc : st1.status_.client_started <;> simp [hcc] at hcond ⊢
  · cases hcc : st1.status_.client_reconnecting <;> simp [hcc] at hcond ⊢
  · cases hcc : st1.status_.client_disconnecting <;> simp [hcc] at hcond ⊢

/-- C8: `public_call` sends the serialized call only when the client is
connected, started, not mid-reconnect and not mid-disconnect, and has
completed the init handshake unless the callback is `OnGameModeInit`
itself; in particular `public_call` of `OnGameModeInit` with the client
not started changes only `server_received_init`, emits no event at all
(no send, no lock), consumes no input and returns at once. -/
theorem C8_public_call_gating :
    (∀ fuel env name hr st script co,
      public_call fuel env name hr st script = some co →
      (∃ p, Event.send CMD_PUBLIC_CALL p ∈ co.evs) →
      is_client_connected st = true ∧ st.status_.client_started = true ∧
      st.status_.client_reconnecting = false ∧
      st.status_.client_disconnecting = false ∧
      (name = "OnGameModeInit" ∨ st.status_.client_received_init = true)) ∧
    (∀ fuel env hr st script, st.status_.client_started = false →
      public_call fuel env "OnGameModeInit" hr st script =
        some ⟨{ st with status_ := { st.status_ with server_received_init := true } },
          script, [], none⟩) := by
  constructor
  · intro fuel env name hr st script co h hp
    obtain ⟨p, hp⟩ := hp
    by_cases hgmi : name = "OnGameModeInit"
    · simp only [public_call, hgmi, String.reduceEq, reduceIte] at h
      split at h
      · cases h
        simp at hp
      next hcond =>
        have hg4 := gate_false_elim _ hcond
        refine ⟨by simpa [is_client_connected] using hg4.1,
          by simpa using hg4.2.1, by simpa using hg4.2.2.1,
          by simpa using hg4.2.2.2, Or.inl hgmi⟩
    · by_cases hgme : name = "OnGameModeExit"
      · simp only [public_call, hgmi, hgme, String.reduceEq, reduceIte,
          not_false_iff, true_and] at h
        split at h
        · cases h
          simp at hp
        next hcond =>
          have hg4 := gate_false_elim _ hcond
          split at h
          · cases h
            simp at hp
          next hcond2 =>
            have hri : st.status_.client_received_init = true := by
              simpa using hcond2
            refine ⟨by simpa [is_client_connected] using hg4.1,
              by simpa using hg4.2.1, by simpa using hg4.2.2.1,
              by simpa using hg4.2.2.2, Or.inr hri⟩
      · simp only [public_call, hgmi, hgme, String.reduceEq, reduceIte,
          not_false_iff, true_and] at h
        split at h
        · cases h
          simp at hp
        next hcond =>
          have hg4 := gate_false_elim _ hcond
          split at h
          · cases h
            simp at hp
          next hcond2 =>
            have hri : st.status_.client_received_init = true := by
              simpa using hcond2
            exact ⟨hg4.1, hg4.2.1, hg4.2.2.1, hg4.2.2.2, Or.inr hri⟩
  · intro fuel env hr st script h
    simp [public_call, h]

/-- C8 witness: the not-started `OnGameModeInit` case on a concrete
connected state. -/
theorem C8_public_call_gating_witness :
    public_call 3 env0 "OnGameModeInit" true st_ns [] =
      some ⟨{ st_ns with
          status_ := { st_ns.status_ with server_received_init := true } },
        [], [], none⟩ :=
  C8_public_call_gating.2 3 env0 true st_ns [] (by decide)

/-- Any state with `client_started` set satisfies the invariant. -/
theorem inv_of_started (s : SState) (h : s.status_.client_started = true) :
    received_init_implies_started s := fun _ => h

/-- `connect` preserves the invariant (it only touches the transport
fields, `client_connected` and `client_reconnecting`). -/
theorem inv_connect (env : Env) (st : SState)
    (h : received_init_implies_started st) :
    received_init_implies_started (connect env st).2.1 := by
  simp only [received_init_implies_started] at *
  simp only [connect]
  split_ifs <;> simp_all

/-- `disconnect` preserves the invariant when the teardown is expected
or `client_received_init` is already clear (the cache-clearing branches
clear `client_started` but never `client_received_init`). -/
theorem inv_disconnect (env : Env) (ctx : Option String) (expected : Bool)
    (st : SState) (h : received_init_implies_started st)
    (hcase : expected = true ∨ st.status_.client_received_init = false) :
    received_init_implies_started (disconnect env ctx expected st).1 := by
  simp only [received_init_implies_started] at *
  simp only [disconnect]
  rcases hcase with hc | hc <;> split_ifs <;> simp_all

/-- The reconnect handler preserves the invariant: its disconnect is
expected. -/
theorem inv_cmd_reconnect (env : Env) (buf : List Nat) (st : SState)
    (h : received_init_implies_started st) :
    received_init_implies_started (cmd_reconnect env buf st).1 := by
  simp only [cmd_reconnect]
  exact inv_disconnect env none true _
    (by simpa [received_init_implies_started] using h) (Or.inl rfl)

/-- `is_debugging` preserves the invariant (it never touches the status
flags). -/
theorem inv_is_debugging (env : Env) (tk : Bool) (st : SState)
    (h : received_init_implies_started st) :
    received_init_implies_started (is_debugging env tk st).2.1 := by
  simp only [received_init_implies_started] at *
  simp only [is_debugging]
  split_ifs <;> simp_all

set_option maxHeartbeats 1600000 in
/-- The whole receive/dispatch interpreter preserves the invariant, by
induction on the fuel: every command handler either leaves the status
flags alone, sets `client_started`, sets `client_received_init` only
after `client_started`, or performs an expected disconnect. -/
theorem inv_interp (fuel : Nat) :
    (∀ env buf st script ro, received_init_implies_started st →
      cmd_start fuel env buf st script = some ro →
      received_init_implies_started ro.st) ∧
    (∀ env c buf st script po, received_init_implies_started st →
      cmd_process fuel env c buf st script = some po →
      received_init_implies_started po.st) ∧
    (∀ env st script po, received_init_implies_started st →
      cmd_receive_one fuel env st script = some po →
      received_init_implies_started po.st) ∧
    (∀ env st script lo, received_init_implies_started st →
      cmd_receive_unhandled fuel env st script = some lo →
      received_init_implies_started lo.st) := by
  induction fuel with
  | zero =>
    exact ⟨fun env buf st script ro _ hh => by simp [cmd_start] at hh,
      fun env c buf st script po _ hh => by simp [cmd_process] at hh,
      fun env st script po _ hh => by simp [cmd_receive_one] at hh,
      fun env st script lo _ hh => by simp [cmd_receive_unhandled] at hh⟩
  | succ n ih =>
    obtain ⟨ihs, ihp, ihr, ihl⟩ := ih
    refine ⟨?_, ?_, ?_, ?_⟩
    · intro env buf st script ro hinv hh
      simp only [cmd_start] at hh
      iterate 12 all_goals try split at hh
      all_goals first
        | exact Option.noConfusion hh
        | (cases hh; exact inv_of_started _ rfl)
        | (cases hh; exact ihl _ _ _ _ (inv_of_started _ rfl) (by assumption))
    · intro env c buf st script po hinv hh
      simp only [cmd_process] at hh
      iterate 12 all_goals try split at hh
      all_goals first
        | exact Option.noConfusion hh
        | (cases hh; exact hinv)
        | (cases hh; exact inv_cmd_reconnect env buf st hinv)
        | (cases hh; exact ihs _ _ _ _ _ hinv (by assumption))
    · intro env st script po hinv hh
      simp only [cmd_receive_one] at hh
      iterate 6 all_goals try split at hh
      all_goals first
        | exact Option.noConfusion hh
        | (cases hh; exact inv_connect env st hinv)
        | (rename_i heq
           cases hh
           have hres := ihp _ _ _ _ _ _
             (by
               have hci := inv_connect env st hinv
               simpa [store_time, received_init_implies_started] using hci) heq
           exact hres)
    · intro env st script lo hinv hh
      simp only [cmd_receive_unhandled] at hh
      split at hh
      · exact Option.noConfusion hh
      next po heq =>
        have hpo := ihr _ _ _ _ hinv heq
        split at hh
        · split at hh
          · exact Option.noConfusion hh
          next lo1 heq1 =>
            cases hh
            have hres := ihl _ _ _ _ hpo heq1
            exact hres
        · cases hh
          exact hpo

/-- The tick drain loop preserves the invariant. -/
theorem inv_tick_drain (fuel : Nat) :
    ∀ env st script rv ro, received_init_implies_started st →
      tick_drain fuel env st script rv = some ro →
      received_init_implies_started ro.st := by
  induction fuel with
  | zero =>
    intro env st script rv ro _ hh
    simp [tick_drain] at hh
  | succ n ih =>
    intro env st script rv ro hinv hh
    simp only [tick_drain] at hh
    split at hh
    · exact Option.noConfusion hh
    next po heq =>
      have hpo := (inv_interp n).2.2.1 _ _ _ _ hinv heq
      iterate 4 all_goals try split at hh
      all_goals first
        | exact Option.noConfusion hh
        | (cases hh; exact hpo)
        | (cases hh; have hres := ih _ _ _ _ _ hpo (by assumption);
           exact hres)

/-- `tick` preserves the invariant. -/
theorem inv_tick (fuel : Nat) (env : Env) (st : SState) (script : List Recv)
    (ro : RunOut) (hinv : received_init_implies_started st)
    (hh : tick fuel env st script = some ro) :
    received_init_implies_started ro.st := by
  by_cases hg : (is_client_connected st && st.status_.client_started &&
      st.status_.client_received_init && !st.status_.client_reconnecting &&
      !st.status_.client_disconnecting) = true
  · simp only [tick, hg, if_true] at hh
    have hst1 := inv_is_debugging env true st hinv
    split at hh
    · exact Option.noConfusion hh
    next ro1 heq =>
      cases hh
      split at heq
      · have hres := inv_tick_drain fuel _ _ _ _ _
          (by simpa [received_init_implies_started] using hst1) heq
        exact hres
      · have hres := inv_tick_drain fuel _ _ _ _ _ hst1 heq
        exact hres
  · have hg2 : (is_client_connected st && st.status_.client_started &&
        st.status_.client_received_init && !st.status_.client_reconnecting &&
        !st.status_.client_disconnecting) = false := by
      simpa using hg
    simp only [tick, hg2, Bool.false_eq_true, if_false] at hh
    split at hh
    · exact Option.noConfusion hh
    next ro1 heq =>
      cases hh
      have hres := inv_tick_drain fuel _ _ _ _ _ hinv heq
      exact hres

/-- `public_call` preserves the invariant: it sets
`client_received_init` only after the gate established
`client_started`. -/
theorem inv_public_call (fuel : Nat) (env : Env) (name : String) (hr : Bool)
    (st : SState) (script : List Recv) (co : CallOut)
    (hinv : received_init_implies_started st)
    (h : public_call fuel env name hr st script = some co) :
    received_init_implies_started co.st := by
  by_cases hgmi : name = "OnGameModeInit"
  · simp only [public_call, hgmi, String.reduceEq, reduceIte] at h
    split at h
    · cases h
      exact hinv
    next hcond =>
      have hg4 := gate_false_elim _ hcond
      split at h
      next hcond2 =>
        exact absurd (by trivial) hcond2.1
      next hcond2 =>
        split at h
        · cases h
          exact inv_is_debugging _ _ _
            (inv_of_started _ (by simpa using hg4.2.1))
        · split at h
          · cases h
            exact inv_is_debugging _ _ _
              (inv_of_started _ (by simpa using hg4.2.1))
          next callBuf heq0 =>
            split at h
            · exact Option.noConfusion h
            next lo heq =>
              cases h
              have hres := (inv_interp fuel).2.2.2 _ _ _ _
                (inv_is_debugging _ _ _
                  (inv_of_started _ (by simpa using hg4.2.1))) heq
              exact hres
  · by_cases hgme : name = "OnGameModeExit"
    · simp only [public_call, hgmi, hgme, String.reduceEq, reduceIte,
        not_false_iff, true_and] at h
      split at h
      · cases h
        exact hinv
      next hcond =>
        split at h
        · cases h
          exact hinv
        next hcond2 =>
          split at h
          · cases h
            exact inv_is_debugging _ _ _ hinv
          · split at h
            · cases h
              exact inv_is_debugging _ _ _ hinv
            next callBuf heq0 =>
              split at h
              · exact Option.noConfusion h
              next lo heq =>
                cases h
                have hd1 : received_init_implies_started
                    ((is_debugging env false
                      { st with status_ :=
                        { st.status_ with server_received_init := false } }).2.1) :=
                  inv_is_debugging _ _ _ hinv
                have hres := (inv_interp fuel).2.2.2 _ _ _ _ hd1 heq
                exact hres
    · simp only [public_call, hgmi, hgme, String.reduceEq, reduceIte,
        not_false_iff, true_and] at h
      split at h
      · cases h
        exact hinv
      next hcond =>
        split at h
        · cases h
          exact hinv
        next hcond2 =>
          split at h
          · cases h
            exact inv_is_debugging _ _ _ hinv
          · split at h
            · cases h
              exact inv_is_debugging _ _ _ hinv
            next callBuf heq0 =>
              split at h
              · exact Option.noConfusion h
              next lo heq =>
                cases h
                have hres := (inv_interp fuel).2.2.2 _ _ _ _
                  (inv_is_debugging _ _ _ hinv) heq
                exact hres

/-- C3 counterexample: from the reachable state with `client_connected`,
`client_started`, `client_received_init` and `server_received_init` all
set, an unexpected disconnect clears `client_started` but leaves
`client_received_init` set, so the invariant is not preserved: the
claim that every disconnect clearing `client_started` also clears
`client_received_init` is false. -/
theorem C3_invariant_counterexample :
    received_init_implies_started st_all ∧
    (disconnect env0 none false st_all).1.status_.client_received_init = true ∧
    (disconnect env0 none false st_all).1.status_.client_started = false := by
  exact ⟨fun _ => rfl, by decide, by decide⟩

/-- C3 (amended): the invariant `client_received_init` implies
`client_started` holds in the initial state and is preserved by every
command handler (via `cmd_process`), by `connect`, by `public_call`, by
`tick`, and by expected disconnects; the client-initiated and
unexpected disconnect branches clear `client_started` without clearing
`client_received_init`, so they preserve the invariant only when
`client_received_init` is already clear. -/
theorem C3_invariant :
    received_init_implies_started (initial_state env0 true).1 ∧
    (∀ fuel env c buf st script po, received_init_implies_started st →
      cmd_process fuel env c buf st script = some po →
      received_init_implies_started po.st) ∧
    (∀ env st, received_init_implies_started st →
      received_init_implies_started (connect env st).2.1) ∧
    (∀ env ctx st, received_init_implies_started st →
      received_init_implies_started (disconnect env ctx true st).1) ∧
    (∀ env ctx expected st, received_init_implies_started st →
      st.status_.client_received_init = false →
      received_init_implies_started (disconnect env ctx expected st).1) ∧
    (∀ fuel env name hr st script co, received_init_implies_started st →
      public_call fuel env name hr st script = some co →
      received_init_implies_started co.st) ∧
    (∀ fuel env st script ro, received_init_implies_started st →
      tick fuel env st script = some ro →
      received_init_implies_started ro.st) := by
  refine ⟨?_, ?_, ?_, ?_, ?_, ?_, ?_⟩
  · intro h
    exact absurd h (by decide)
  · intro fuel env c buf st script po hinv hh
    exact (inv_interp fuel).2.1 _ _ _ _ _ _ hinv hh
  · exact inv_connect
  · intro env ctx st hinv
    exact inv_disconnect env ctx true st hinv (Or.inl rfl)
  · intro env ctx expected st hinv hri
    exact inv_disconnect env ctx expected st hinv (Or.inr hri)
  · exact inv_public_call
  · exact inv_tick

/-- C3 witness: the expected-disconnect conjunct applied to the fully
flagged state preserves the invariant. -/
theorem C3_invariant_witness :
    received_init_implies_started (disconnect env0 none true st_all).1 :=
  C3_invariant.2.2.2.1 env0 none st_all (fun _ => rfl)

/-- `cmd_process` writes the reply slot only for an unhandled command
with a nonempty payload, and then writes exactly the payload. -/
theorem cmd_process_resp (fuel : Nat) :
    ∀ env c buf st script po, cmd_process fuel env c buf st script = some po →
      po.resp = none ∨
      ∃ r, po.resp = some r ∧ 0 < r.length ∧ po.stat = CmdStatus.unhandled := by
  intro env c buf st script po hh
  match fuel with
  | 0 => simp [cmd_process] at hh
  | f + 1 =>
    simp only [cmd_process] at hh
    iterate 12 all_goals try split at hh
    all_goals first
      | exact Option.noConfusion hh
      | (cases hh; exact Or.inl rfl)
      | (cases hh;
         exact Or.inr ⟨buf, rfl, by (cases buf <;> simp_all), rfl⟩)

/-- `cmd_receive_one` passes the reply-slot discipline through. -/
theorem cmd_receive_one_resp (fuel : Nat) :
    ∀ env st script po, cmd_receive_one fuel env st script = some po →
      po.resp = none ∨
      ∃ r, po.resp = some r ∧ 0 < r.length ∧ po.stat = CmdStatus.unhandled := by
  intro env st script po hh
  match fuel with
  | 0 => simp [cmd_receive_one] at hh
  | f + 1 =>
    simp only [cmd_receive_one] at hh
    iterate 4 all_goals try split at hh
    all_goals first
      | exact Option.noConfusion hh
      | (cases hh; exact Or.inl rfl)
      | (cases hh;
         rcases cmd_process_resp f _ _ _ _ _ _ (by assumption) with
           h1 | ⟨r, h1, h2, h3⟩
         exacts [Or.inl h1, Or.inr ⟨r, h1, h2, h3⟩])

/-- C10: the receive loop surfaces a reply only on the unhandled stop
(a `false` result has no buffer, and every surfaced buffer is
nonempty), and the `public_call` tail reads the 4-byte return value
only with a supplied slot, a reply of at least 5 bytes and a non-zero
first byte — the 4 bytes read are in bounds — releases the reply
exactly once on the path that received one, and releases nothing on the
no-reply path; shorter or first-byte-zero replies leave the slot
unchanged. -/
theorem C10_reply_handling :
    (∀ fuel env st script lo, cmd_receive_unhandled fuel env st script = some lo →
      (lo.ok = false → lo.resp = none) ∧ (∀ r, lo.resp = some r → 0 < r.length)) ∧
    (∀ okB resp hr name v, (public_call_tail okB resp hr name).2 = some v →
      hr = true ∧ ∃ r, resp = some r ∧ 5 ≤ r.length ∧ r.headI ≠ 0 ∧
        v = decodeU32 ((r.drop 1).take 4) ∧ ((r.drop 1).take 4).length = 4) ∧
    (∀ okB resp hr name r, resp = some r → okB = true → 0 < r.length →
      (public_call_tail okB resp hr name).1 =
        [Event.lockRelease, Event.freeBuf r]) ∧
    (∀ okB hr name b, Event.freeBuf b ∉ (public_call_tail okB none hr name).1) ∧
    (∀ okB resp hr name r, resp = some r →
      ¬(5 ≤ r.length ∧ r.headI ≠ 0 ∧ hr = true) →
      (public_call_tail okB resp hr name).2 = none) := by
  refine ⟨?_, ?_, ?_, ?_, ?_⟩
  · intro fuel
    induction fuel with
    | zero =>
      intro env st script lo hh
      simp [cmd_receive_unhandled] at hh
    | succ n ih =>
      intro env st script lo hh
      simp only [cmd_receive_unhandled] at hh
      split at hh
      · exact Option.noConfusion hh
      next po heq =>
        split at hh
        · split at hh
          · exact Option.noConfusion hh
          next lo1 heq1 =>
            cases hh
            have h2 := ih _ _ _ _ heq1
            exact ⟨fun hb => h2.1 hb, fun r hr => h2.2 r hr⟩
        next hcond =>
          cases hh
          rcases cmd_receive_one_resp n _ _ _ _ heq with h1 | ⟨r, h1, h2, h3⟩
          · refine ⟨fun _ => h1, fun r2 hr2 => ?_⟩
            rw [h1] at hr2
            exact Option.noConfusion hr2
          · constructor
            · intro hb
              rw [h3] at hb
              exact Bool.noConfusion hb
            · intro r2 hr2
              rw [h1] at hr2
              cases hr2
              exact h2
  · intro okB resp hr name v hv
    cases okB <;> cases resp <;> simp only [public_call_tail] at hv
    · exact Option.noConfusion hv
    · exact Option.noConfusion hv
    · exact Option.noConfusion hv
    next r =>
      split at hv
      · exact Option.noConfusion hv
      next h0 =>
        split at hv
        next hc =>
          cases hv
          simp only [Bool.and_eq_true, decide_eq_true_eq] at hc
          refine ⟨hc.2, r, rfl, hc.1.1, hc.1.2, rfl, ?_⟩
          rw [List.length_take, List.length_drop]
          omega
        · exact Option.noConfusion hv
  · intro okB resp hr name r hres hok h0
    subst hres
    subst hok
    simp only [public_call_tail]
    rw [if_neg (by omega)]
  · intro okB hr name b
    cases okB <;> simp [public_call_tail]
  · intro okB resp hr name r hres hcond
    subst hres
    have hb : (decide (5 ≤ r.length) && decide (r.headI ≠ 0) && hr) = false := by
      rcases Bool.eq_false_or_eq_true
          (decide (5 ≤ r.length) && decide (r.headI ≠ 0) && hr) with hy | hy
      · exfalso
        apply hcond
        simp only [Bool.and_eq_true, decide_eq_true_eq] at hy
        exact ⟨hy.1.1, hy.1.2, hy.2⟩
      · exact hy
    cases okB with
    | false => rfl
    | true =>
      simp only [public_call_tail]
      split_ifs with h0 hc
      · rfl
      · rw [hb] at hc
        exact Bool.noConfusion hc
      · rfl

/-- C10 witness: a five-byte reply with non-zero first byte is freed
exactly once after the unlock. -/
theorem C10_reply_handling_witness :
    (public_call_tail true (some [1, 2, 0, 0, 0]) true "OnX").1 =
      [Event.lockRelease, Event.freeBuf [1, 2, 0, 0, 0]] :=
  C10_reply_handling.2.2.1 true (some [1, 2, 0, 0, 0]) true "OnX"
    [1, 2, 0, 0, 0] rfl rfl (by decide)
